import Mathlib

/-!
Verification of the geospatial proximity-search and news-aggregation core of
the campulse-api backend (FastAPI + Firestore).

The development shallowly embeds the relevant Python code:

* `app/routers/post.py` — `create_institution_post`, `update_institution_post`,
  `get_nearby_institution_posts`, `ai_search_posts`;
* `app/routers/news.py` — `search_news`;
* `app/core/websearch.py` — the three news-provider fetchers;
* the `geohash2.encode` library call used by the post router.

Conventions of the embedding:

* Python floats are modelled as exact rationals (`ℚ`).  The transcendental
  pieces (`math.sin`/`cos`/`atan2` inside `haversine_distance`, and the
  `cos` inside `bounding_box`) cannot be embedded exactly, so the distance
  function and the bounding-box function are parameters of the model; every
  theorem quantifies over them, which is sound because no claim below
  depends on their numeric values.
* `geohash2.encode` is binary bisection of the latitude/longitude intervals;
  it is embedded exactly over rationals.  To keep the definition
  kernel-computable the bisection carries the interval endpoints as integers
  at a power-of-two scale (`lo/s`, `hi/s` with `s` doubling at each step),
  which is the same arithmetic as the library's
  `mid = (lo+hi)/2; if coordinate > mid ...` on exact numbers.  A geohash is
  represented by its list of base-32 digit values; the geohash alphabet
  "0123456789bcdefghjkmnpqrstuvwxyz" is strictly increasing in ASCII, so
  lexicographic comparison of geohash strings (as done by the Firestore
  range query) coincides with lexicographic comparison of the digit lists.
* Raised exceptions are modelled with `Except`; an uncaught exception in a
  FastAPI endpoint surfaces as an HTTP 500, and the routers' blanket
  `except Exception` handlers re-raise `HTTPException(500, ...)`.
* Python `x or y` on strings/optional strings (falsy = `None` or `""`) is
  modelled by the `pyOr*` helpers.
* Python `list.sort` is a stable comparison sort; it is modelled by a stable
  insertion sort (`sortLe`).  CPython raises `TypeError` as soon as two
  incomparable keys (here: a `datetime` and the `int` `0`) are compared, and
  any comparison sort of a list containing both kinds of key must compare a
  `datetime` with an `int` at some point, so sorting such a mixed list is
  modelled as raising.
-/

/-- Python `x or default` for an optional string: `None` and `""` are falsy. -/
def pyOrOptStr (x : Option String) (default : String) : String :=
  match x with
  | none => default
  | some s => if s = "" then default else s

/-- Python `x or default` for a plain string: `""` is falsy. -/
def pyOrStr (x default : String) : String :=
  if x = "" then default else x

/-- Insert `a` into `l` in front of the first element `b` with `le a b`;
stable-insertion step of `sortLe`. -/
def insertLe (le : α → α → Bool) (a : α) : List α → List α
  | [] => [a]
  | b :: bs => if le a b then a :: b :: bs else b :: insertLe le a bs

/-- Stable insertion sort; models Python `list.sort(key=...)` (a stable sort). -/
def sortLe (le : α → α → Bool) : List α → List α
  | [] => []
  | a :: as => insertLe le a (sortLe le as)

/-- One bisection step of `geohash2.encode`, on exact rational coordinates
`latN/latD` and `lonN/lonD`.  The current intervals are kept as scaled
integers: the latitude interval is `(latLo/latS, latHi/latS)` and the
longitude interval `(lonLo/lonS, lonHi/lonS)`.  The library computes
`mid = (lo + hi) / 2` and tests `coordinate > mid`; here
`coordinate > (lo + hi)/(2*s)  ↔  num * (2*s) > (lo + hi) * den`,
and the halved interval is re-scaled by doubling `s`. -/
def geohashBitsLoop (latN : ℤ) (latD : ℕ) (lonN : ℤ) (lonD : ℕ) :
    Nat → ℤ → ℤ → ℤ → ℤ → ℤ → ℤ → Bool → List Bool
  | 0, _, _, _, _, _, _, _ => []
  | n+1, latLo, latHi, latS, lonLo, lonHi, lonS, even =>
    if even then
      let mid := lonLo + lonHi
      if lonN * (2 * lonS) > mid * lonD then
        true :: geohashBitsLoop latN latD lonN lonD n latLo latHi latS mid (2*lonHi) (2*lonS) false
      else
        false :: geohashBitsLoop latN latD lonN lonD n latLo latHi latS (2*lonLo) mid (2*lonS) false
    else
      let mid := latLo + latHi
      if latN * (2 * latS) > mid * latD then
        true :: geohashBitsLoop latN latD lonN lonD n mid (2*latHi) (2*latS) lonLo lonHi lonS true
      else
        false :: geohashBitsLoop latN latD lonN lonD n (2*latLo) mid (2*latS) lonLo lonHi lonS true

/-- Value of a 5-bit group, most significant bit first (the `ch |= bits[bit]`
accumulation of the geohash library). -/
def bitsToNat (bs : List Bool) : Nat :=
  bs.foldl (fun a b => 2 * a + (if b then 1 else 0)) 0

/-- Split a bit stream into `n` groups of 5 (one base-32 character each). -/
def chunk5 : Nat → List Bool → List (List Bool)
  | 0, _ => []
  | n+1, bs => bs.take 5 :: chunk5 n (bs.drop 5)

/-- `geohash2.encode(lat, lng, precision)`, producing the base-32 digit values
of the geohash (alphabet "0123456789bcdefghjkmnpqrstuvwxyz", which is
ASCII-increasing, so digit-list lexicographic order equals string order). -/
def geohash2_encode (lat lon : ℚ) (precision : Nat) : List Nat :=
  let bits := geohashBitsLoop lat.num lat.den lon.num lon.den
      (precision * 5) (-90) 90 1 (-180) 180 1 true
  (chunk5 precision bits).map bitsToNat

/-- Lexicographic comparison of geohash digit lists, matching the byte-wise
string comparison Firestore applies to the `geohash` field (a strict prefix
compares as smaller). -/
def lexLe : List Nat → List Nat → Bool
  | [], _ => true
  | _ :: _, [] => false
  | a :: as, b :: bs => if a < b then true else if b < a then false else lexLe as bs

/-- The `label`/`lat`/`lng` payload of `app/models/post.py:MapLocation`. -/
structure MapLocation where
  label : String
  lat : ℚ
  lng : ℚ
deriving DecidableEq

/-- A `map_location` value found in a stored Firestore document.  `loc` is a
well-formed `{label, lat, lng}` map; `missingCoords` is a map that lacks the
`lat`/`lng` keys, so that `post_data['map_location']['lat']` raises
`KeyError` (the migration script `migrate_add_geohash.py` shows such
documents exist in the store). -/
inductive LocField
  | loc (m : MapLocation)
  | missingCoords
deriving DecidableEq

/-- The slice of a stored `institution_posts` document that the claims are
about.  `geohash` is `none` when the document has no `geohash` key;
geohashes are represented by their base-32 digit lists. -/
structure StoredPost where
  id : String
  institution_id : String
  title : String
  content : String
  map_location : Option LocField
  geohash : Option (List Nat)
deriving DecidableEq

/-- Request body of `POST /institution_posts/`
(`app/models/post.py:InstitutionPostCreate`, fields the claims depend on). -/
structure InstitutionPostCreate where
  institution_id : String
  title : String
  content : String
  map_location : Option MapLocation
deriving DecidableEq

/-- Request body of `PUT /institution_posts/{post_id}`
(`app/models/post.py:InstitutionPostUpdate`): every field optional, `none`
meaning "not set" (the router dumps with `exclude_unset=True`). -/
structure InstitutionPostUpdate where
  institution_id : Option String := none
  title : Option String := none
  content : Option String := none
  map_location : Option MapLocation := none
deriving DecidableEq

/-- `create_institution_post` (post.py lines 158-168): dump the body, and iff
`map_location` is present also write `geohash = geohash2.encode(lat, lng, 9)`. -/
def create_institution_post (docId : String) (post : InstitutionPostCreate) : StoredPost :=
  { id := docId
    institution_id := post.institution_id
    title := post.title
    content := post.content
    map_location := post.map_location.map .loc
    geohash := post.map_location.map (fun m => geohash2_encode m.lat m.lng 9) }

/-- `update_institution_post` (post.py lines 289-292): `post_ref.update` with
the set fields of the body.  No field of the body is named `geohash`, so the
stored `geohash` is left untouched even when `map_location` changes. -/
def update_institution_post (doc : StoredPost) (post : InstitutionPostUpdate) : StoredPost :=
  { doc with
    institution_id := post.institution_id.getD doc.institution_id
    title := post.title.getD doc.title
    content := post.content.getD doc.content
    map_location :=
      match post.map_location with
      | some m => some (.loc m)
      | none => doc.map_location }

/-- A raised `fastapi.HTTPException` (or an uncaught exception surfaced by the
framework as status 500). -/
structure HTTPException where
  status_code : Nat
  detail : String
deriving DecidableEq

/-- Type of the `haversine_distance(lat1, lon1, lat2, lon2)` function
(post.py lines 19-32).  It is built from `math.sin`/`cos`/`atan2`, which have
no exact rational embedding, so the nearby-search model takes the distance
function as a parameter; the claims hold for every distance function. -/
def DistanceFn : Type := ℚ → ℚ → ℚ → ℚ → ℚ

/-- Type of `bounding_box(lat, lon, radius)` from `app/db/utils.py`
(returns `(min_lat, min_lon, max_lat, max_lon)`).  Its formula divides by
`cos(pi * lat / 180)`, so it is likewise a parameter of the model. -/
def BoundingBoxFn : Type := ℚ → ℚ → ℚ → ℚ × ℚ × ℚ × ℚ

/-- The candidate loop of `get_nearby_institution_posts` (post.py lines
238-248): a candidate without a `map_location` key is skipped; for the rest
`post_data['map_location']['lat']` / `['lng']` are read — raising `KeyError`
for a malformed map — the distance is computed, and the candidate is kept
iff `distance <= radius`.  A raised exception is caught only by the
endpoint-level `except Exception`, which turns it into an HTTP 500, so one
malformed candidate aborts the whole batch. -/
def processCandidates (dist : DistanceFn) (lat lon radius : ℚ) :
    List StoredPost → Except HTTPException (List (StoredPost × ℚ))
  | [] => .ok []
  | d :: rest =>
    match d.map_location with
    | none => processCandidates dist lat lon radius rest
    | some .missingCoords =>
        .error ⟨500, "Failed to retrieve nearby institution posts: KeyError"⟩
    | some (.loc m) =>
        (processCandidates dist lat lon radius rest).map fun posts =>
          let distance := dist lat lon m.lat m.lng
          if distance ≤ radius then (d, distance) :: posts else posts

/-- Reference form of the candidate loop on a batch with no malformed
candidate: keep each well-located candidate within `radius`, paired with its
distance. -/
def processCandidatesSpec (dist : DistanceFn) (lat lon radius : ℚ)
    (cands : List StoredPost) : List (StoredPost × ℚ) :=
  cands.filterMap fun d =>
    match d.map_location with
    | some (.loc m) =>
        let distance := dist lat lon m.lat m.lng
        if distance ≤ radius then some (d, distance) else none
    | _ => none

/-- `get_nearby_institution_posts` (post.py lines 223-251): compute the
bounding box, geohash-encode its SW and NE corners at precision 7, range-scan
the store on the `geohash` field (documents without the field never match a
Firestore range filter), post-filter by exact distance, sort ascending by
distance (`posts.sort(key=lambda x: x.distance)`) and return the first 50. -/
def get_nearby_institution_posts (bbox : BoundingBoxFn) (dist : DistanceFn)
    (lat lon radius : ℚ) (store : List StoredPost) :
    Except HTTPException (List (StoredPost × ℚ)) :=
  let b := bbox lat lon radius
  let geohash_sw := geohash2_encode b.1 b.2.1 7
  let geohash_ne := geohash2_encode b.2.2.1 b.2.2.2 7
  let candidates := store.filter fun d =>
    match d.geohash with
    | some g => lexLe geohash_sw g && lexLe g geohash_ne
    | none => false
  (processCandidates dist lat lon radius candidates).map fun posts =>
    (sortLe (fun a b => decide (a.2 ≤ b.2)) posts).take 50

/-- `app/models/news.py:NewsItem` — the ephemeral item shape produced by the
provider fetchers (`title` is the only required string field). -/
structure NewsItem where
  id : Option String := none
  title : String
  description : Option String := none
  url : Option String := none
  source : Option String := none
  image : Option String := none
  time : Option String := none
  type_of_post : Option String := none
deriving DecidableEq

/-- Fields of one NewsAPI article object that `fetch_newsapi_news` reads
(websearch.py lines 32-49); each may be absent or null. -/
structure RawNewsapiArticle where
  url : Option String := none
  title : Option String := none
  description : Option String := none
  source_name : Option String := none
  urlToImage : Option String := none
  publishedAt : Option String := none
deriving DecidableEq

/-- Fields of one SerpAPI `news_results` entry read by `fetch_serpapi_news`
(websearch.py lines 82-94). -/
structure RawSerpapiItem where
  link : Option String := none
  title : Option String := none
  snippet : Option String := none
  source : Option String := none
  thumbnail : Option String := none
  date : Option String := none
deriving DecidableEq

/-- Fields of one Serper `news` entry read by `fetch_serper_news`
(websearch.py lines 123-135). -/
structure RawSerperItem where
  link : Option String := none
  title : Option String := none
  description : Option String := none
  source : Option String := none
  thumbnail : Option String := none
  date : Option String := none
deriving DecidableEq

/-- Normalization of one NewsAPI article (websearch.py lines 38-49):
`title=article.get("title") or "Untitled"`, the rest passed through. -/
def newsapi_item (a : RawNewsapiArticle) : NewsItem :=
  { id := a.url
    title := pyOrOptStr a.title "Untitled"
    description := a.description
    url := a.url
    source := a.source_name
    image := a.urlToImage
    time := a.publishedAt
    type_of_post := some "news" }

/-- Normalization of one SerpAPI entry (websearch.py lines 83-94);
`item.get("source", "SerpAPI")` defaults only when the key is missing. -/
def serpapi_item (i : RawSerpapiItem) : NewsItem :=
  { id := i.link
    title := pyOrOptStr i.title "Untitled"
    description := i.snippet
    url := i.link
    source := some (i.source.getD "SerpAPI")
    image := i.thumbnail
    time := i.date
    type_of_post := some "news" }

/-- Normalization of one Serper entry (websearch.py lines 124-135). -/
def serper_item (i : RawSerperItem) : NewsItem :=
  { id := i.link
    title := pyOrOptStr i.title "Untitled"
    description := i.description
    url := i.link
    source := some (i.source.getD "Serper")
    image := i.thumbnail
    time := i.date
    type_of_post := some "news" }

/-- The HTTP request each provider fetcher dispatches, reduced to the fields
the claims mention: the query string, and for NewsAPI also the forwarded
`page`/`pageSize` parameters (websearch.py lines 14-20), for the other two
the `num` parameter. -/
inductive ProviderRequest
  | newsapi (q : String) (page : Nat) (pageSize : Nat)
  | serpapi (q : String) (num : Nat)
  | serper (q : String) (num : Nat)
deriving DecidableEq

/-- Query string a provider request was dispatched with. -/
def requestQuery : ProviderRequest → String
  | .newsapi q _ _ => q
  | .serpapi q _ => q
  | .serper q _ => q

/-- Request built by `fetch_newsapi_news(query, page, page_size)`
(websearch.py lines 14-20): params `{"q": query or "Cameroon", "page": page,
"pageSize": page_size, ...}`. -/
def fetch_newsapi_request (query : String) (page page_size : Nat) : ProviderRequest :=
  .newsapi (pyOrStr query "Cameroon") page page_size

/-- Request built by `fetch_serpapi_news(query, num)` (websearch.py 62-69). -/
def fetch_serpapi_request (query : String) (num : Nat) : ProviderRequest :=
  .serpapi query num

/-- Request built by `fetch_serper_news(query, num)` (websearch.py 106-111). -/
def fetch_serper_request (query : String) (num : Nat) : ProviderRequest :=
  .serper query num

/-- Task list built by `search_news` (news.py lines 105-115):
`query = q or "Cameroon"`, then one task per selected provider; NewsAPI gets
`page=page, page_size=page_size`, SerpAPI and Serper get `num=page_size`. -/
def search_news_requests (q : Option String) (page page_size : Nat)
    (source : Option String) : List ProviderRequest :=
  let query := pyOrOptStr q "Cameroon"
  (if source = none ∨ source = some "newsapi" then
    [fetch_newsapi_request query page page_size] else [])
  ++ (if source = none ∨ source = some "serpapi" then
    [fetch_serpapi_request query page_size] else [])
  ++ (if source = none ∨ source = some "serper" then
    [fetch_serper_request query page_size] else [])

/-- The `asyncio.gather(..., return_exceptions=True)` merge (news.py lines
120-125): a provider whose fetch raised is skipped, the others' item lists
are concatenated in task order.  The fetch behaviour (network, keys,
provider payloads) is a parameter. -/
def search_news_merged (fetch : ProviderRequest → Except Unit (List NewsItem))
    (q : Option String) (page page_size : Nat) (source : Option String) :
    List NewsItem :=
  (search_news_requests q page page_size source).foldl
    (fun acc t => match fetch t with
      | .ok items => acc ++ items
      | .error _ => acc) []

/-- One step of the deduplication loop of `search_news` (news.py lines
127-133): `identifier = item.url or item.title`; keep the item iff the
identifier is truthy (`if identifier`) and not seen yet. -/
def dedup_news_step (acc : List NewsItem × List String) (item : NewsItem) :
    List NewsItem × List String :=
  let identifier := pyOrOptStr item.url item.title
  if identifier ≠ "" ∧ identifier ∉ acc.2 then
    (acc.1 ++ [item], acc.2 ++ [identifier])
  else acc

/-- Deduplication pass of `search_news` (news.py lines 127-133); first
occurrence wins. -/
def dedup_news (items : List NewsItem) : List NewsItem :=
  (items.foldl dedup_news_step ([], [])).1

/-- One step of deduplication as the spec describes it — drop an item only
when its identity duplicates an earlier item — with no truthiness test. -/
def dedup_by_identity_step (acc : List NewsItem × List String) (item : NewsItem) :
    List NewsItem × List String :=
  let identifier := pyOrOptStr item.url item.title
  if identifier ∉ acc.2 then
    (acc.1 ++ [item], acc.2 ++ [identifier])
  else acc

/-- Deduplication by canonical identity alone, the spec's description;
compared against `dedup_news` in claim C9. -/
def dedup_by_identity (items : List NewsItem) : List NewsItem :=
  (items.foldl dedup_by_identity_step ([], [])).1

/-- Sort key of one item (news.py lines 135-141): `parse_time(x.time) or 0`.
`parse` is `dateutil.parser.parse` (a parameter of the model), returning a
`datetime` (modelled as its integer timestamp) or failing; `parse(None)` and
parse failures yield `None`, and `None or 0` is the *int* `0`, while a
successful parse yields a *datetime*. -/
inductive PySortKey
  | dt (t : ℤ)
  | pyIntZero
deriving DecidableEq

/-- Key of a news item under the model parser `parse`. -/
def newsSortKey (parse : String → Option ℤ) (it : NewsItem) : PySortKey :=
  match it.time.bind parse with
  | some t => .dt t
  | none => .pyIntZero

/-- Whether a key is a `datetime` (as opposed to the int `0` fallback). -/
def PySortKey.isDt : PySortKey → Bool
  | .dt _ => true
  | .pyIntZero => false

/-- Numeric value used to order keys of one same kind. -/
def PySortKey.val : PySortKey → ℤ
  | .dt t => t
  | .pyIntZero => 0

/-- `unique_results.sort(key=lambda x: parse_time(x.time) or 0, reverse=True)`
(news.py line 141).  CPython's comparison sort raises `TypeError` the first
time a `datetime` key is compared with the int `0`, and sorting a list whose
keys include both kinds must perform such a comparison, so the mixed case is
modelled as raising; otherwise the list is stably sorted descending by key. -/
def pySortNewsDesc (parse : String → Option ℤ) (items : List NewsItem) :
    Except Unit (List NewsItem) :=
  let keys := items.map (newsSortKey parse)
  if keys.any (fun k => k.isDt) ∧ keys.any (fun k => !k.isDt) then
    .error ()
  else
    .ok (sortLe (fun a b =>
      decide ((newsSortKey parse b).val ≤ (newsSortKey parse a).val)) items)

/-- `GET /news/search` (news.py lines 98-145): build the task list (400 if
empty), gather and merge, deduplicate, sort descending by published time
(an uncaught `TypeError` there surfaces as HTTP 500), and return the slice
`[(page-1)*page_size : (page-1)*page_size + page_size]` of the aggregate. -/
def search_news (fetch : ProviderRequest → Except Unit (List NewsItem))
    (parse : String → Option ℤ) (q : Option String) (page page_size : Nat)
    (source : Option String) : Except HTTPException (List NewsItem) :=
  let tasks := search_news_requests q page page_size source
  if tasks = [] then .error ⟨400, "Invalid source parameter"⟩
  else
    let unique_results := dedup_news (search_news_merged fetch q page page_size source)
    match pySortNewsDesc parse unique_results with
    | .error _ =>
        .error ⟨500, "TypeError: cannot compare datetime.datetime to int"⟩
    | .ok sorted =>
        .ok ((sorted.drop ((page - 1) * page_size)).take page_size)

/-- Python `s.find(c)` for a single character: index of first occurrence,
`-1` when absent. -/
def pyFindCharAux (c : Char) : List Char → ℤ → ℤ
  | [], _ => -1
  | x :: xs, i => if x = c then i else pyFindCharAux c xs (i + 1)

/-- Python `s.find(c)`. -/
def pyFindChar (s : String) (c : Char) : ℤ :=
  pyFindCharAux c s.toList 0

/-- Python `s.rfind(c)` for a single character: index of last occurrence,
`-1` when absent. -/
def pyRFindChar (s : String) (c : Char) : ℤ :=
  (s.toList.foldl
    (fun (acc : ℤ × ℤ) x => (if x = c then acc.2 else acc.1, acc.2 + 1))
    (-1, 0)).1

/-- Python `s[a:b]` for `a, b ≥ 0` (the only way the router slices). -/
def pySlice (s : String) (a b : ℤ) : String :=
  String.mk ((s.toList.drop a.toNat).take (b - a).toNat)

/-- The structured filter `ai_search_posts` expects inside the completion
response (post.py lines 50-57); missing fields are later read with
`params.get(...)` defaults. -/
structure SearchParams where
  post_types : List String := []
  keywords : List String := []
  categories : List String := []
  time_filter : Option String := none
  location_type : Option String := none
deriving DecidableEq

/-- JSON-extraction step of `ai_search_posts` (post.py lines 79-84):
`start = extracted.find("{")`, `end = extracted.rfind("}") + 1`; raise
`HTTPException(500, "Failed to parse JSON from Ollama")` when the check
`start == -1 or end == -1` fires, else slice `extracted[start:end]`. -/
def ai_search_extract (extracted : String) : Except HTTPException String :=
  let start := pyFindChar extracted '\x7b'
  let stop := pyRFindChar extracted '\x7d' + 1
  if start = -1 ∨ stop = -1 then
    .error ⟨500, "Failed to parse JSON from Ollama"⟩
  else
    .ok (pySlice extracted start stop)

/-- Translation step of `ai_search_posts` as the client sees it: the slice is
fed to `json.loads` (a parameter: `none` = `JSONDecodeError`).  Both the
`HTTPException` raised at line 83 and a `JSONDecodeError` are caught by the
endpoint's blanket `except Exception as e` (post.py lines 140-142), which
re-raises `HTTPException(500, f"AI search failed: {e}")`. -/
def ai_search_posts_translate (json_loads : String → Option SearchParams)
    (extracted : String) : Except HTTPException SearchParams :=
  match ai_search_extract extracted with
  | .error e => .error ⟨500, "AI search failed: " ++ e.detail⟩
  | .ok s =>
    match json_loads s with
    | none => .error ⟨500, "AI search failed: Expecting value"⟩
    | some p => .ok p

/-- Distance-function instantiation used by concrete witnesses: the constant
zero distance (any `DistanceFn` works for the quantified theorems). -/
def distZero : DistanceFn := fun _ _ _ _ => 0

/-- Bounding-box instantiation used by concrete witnesses: the whole
lat/lng range, whose corner geohashes bracket every test geohash. -/
def bboxWhole : BoundingBoxFn := fun _ _ _ => (-90, -180, 90, 180)

/-- Test fixture: a create body with a well-formed `map_location` (Douala,
lat 4.05, lng 9.7). -/
def postDouala : InstitutionPostCreate :=
  { institution_id := "inst1"
    title := "Job fair"
    content := "Come one come all"
    map_location := some ⟨"Douala", mkRat 81 20, mkRat 97 10⟩ }

/-- Test fixture: the Yaounde location (lat 3.848, lng 11.502). -/
def locYaounde : MapLocation :=
  ⟨"Yaounde", mkRat 481 125, mkRat 5751 500⟩

/-- Test fixture: the stored document created from `postDouala`. -/
def docDouala : StoredPost :=
  create_institution_post "p1" postDouala

/-- Test fixture: a stored document whose `map_location` map lacks the
`lat`/`lng` keys but whose `geohash` lies in any query range used below. -/
def docBroken : StoredPost :=
  { id := "p2"
    institution_id := "inst1"
    title := "broken"
    content := "bad map_location"
    map_location := some .missingCoords
    geohash := some (geohash2_encode (mkRat 81 20) (mkRat 97 10) 9) }

/-- Test fixture: a `dateutil.parser.parse` stand-in that parses exactly one
ISO timestamp and fails on everything else. -/
def parseStub : String → Option ℤ :=
  fun s => if s = "2024-05-01T10:00:00Z" then some 1714557600 else none

/-- Test fixture: a news item whose timestamp `parseStub` parses. -/
def itemParsable : NewsItem :=
  { title := "Port expansion announced"
    url := some "https://news.example/a"
    time := some "2024-05-01T10:00:00Z" }

/-- Test fixture: a news item whose timestamp fails to parse. -/
def itemUnparsable : NewsItem :=
  { title := "Election coverage"
    url := some "https://news.example/b"
    time := some "yesterday evening" }

/-- Test fixture: a provider behaviour returning one parsable-timestamp item
and one unparsable-timestamp item. -/
def fetchTwo : ProviderRequest → Except Unit (List NewsItem) :=
  fun _ => .ok [itemParsable, itemUnparsable]

/-- Test fixture: a provider behaviour in which NewsAPI answers page 1 and
later pages with different articles — which is what the real NewsAPI does
with the forwarded `page` parameter. -/
def fetchPageProbe : ProviderRequest → Except Unit (List NewsItem) :=
  fun r => match r with
    | .newsapi _ page _ =>
        .ok (if page = 1 then [{ title := "page one story" }]
             else [{ title := "later page story" }])
    | _ => .ok []

/-- Test fixture: a create body with no `map_location`. -/
def postNoLoc : InstitutionPostCreate :=
  { institution_id := "inst1"
    title := "Plain announcement"
    content := "No venue"
    map_location := none }

/-- Membership in a stable insertion is membership in the inserted element or
the original list. -/
theorem mem_insertLe {le : α → α → Bool} {a x : α} {l : List α} :
    x ∈ insertLe le a l ↔ x = a ∨ x ∈ l := by
  induction l with
  | nil => simp [insertLe]
  | cons b bs ih =>
    simp only [insertLe]
    split
    · simp [List.mem_cons]
    · simp only [List.mem_cons, ih]
      tauto

/-- Inserting adds one element. -/
theorem length_insertLe {le : α → α → Bool} {a : α} {l : List α} :
    (insertLe le a l).length = l.length + 1 := by
  induction l with
  | nil => rfl
  | cons b bs ih =>
    simp only [insertLe]
    split
    · rfl
    · simp [ih]

/-- `sortLe` is length preserving. -/
theorem length_sortLe {le : α → α → Bool} {l : List α} :
    (sortLe le l).length = l.length := by
  induction l with
  | nil => rfl
  | cons a as ih => simp [sortLe, length_insertLe, ih]

/-- `sortLe` is membership preserving. -/
theorem mem_sortLe {le : α → α → Bool} {x : α} {l : List α} :
    x ∈ sortLe le l ↔ x ∈ l := by
  induction l with
  | nil => simp [sortLe]
  | cons a as ih => simp [sortLe, mem_insertLe, ih]

/-- Inserting into a `le`-ordered list keeps it ordered, provided `le` is
transitive and total. -/
theorem pairwise_insertLe {le : α → α → Bool}
    (htrans : ∀ a b c, le a b = true → le b c = true → le a c = true)
    (htotal : ∀ a b, le a b = true ∨ le b a = true)
    {a : α} {l : List α} (h : l.Pairwise (fun x y => le x y = true)) :
    (insertLe le a l).Pairwise (fun x y => le x y = true) := by
  induction l with
  | nil => simp [insertLe]
  | cons b bs ih =>
    rcases List.pairwise_cons.mp h with ⟨hb, hbs⟩
    simp only [insertLe]
    split
    case isTrue hab =>
      refine List.pairwise_cons.mpr ⟨?_, h⟩
      intro y hy
      rcases List.mem_cons.mp hy with heq | hy'
      · subst heq; exact hab
      · exact htrans a b y hab (hb y hy')
    case isFalse hab =>
      refine List.pairwise_cons.mpr ⟨?_, ih hbs⟩
      intro y hy
      rcases mem_insertLe.mp hy with heq | hy'
      · rw [heq]
        rcases htotal b a with h' | h'
        · exact h'
        · exact absurd h' hab
      · exact hb y hy'

/-- `sortLe` orders its output whenever `le` is transitive and total. -/
theorem pairwise_sortLe {le : α → α → Bool}
    (htrans : ∀ a b c, le a b = true → le b c = true → le a c = true)
    (htotal : ∀ a b, le a b = true ∨ le b a = true) (l : List α) :
    (sortLe le l).Pairwise (fun x y => le x y = true) := by
  induction l with
  | nil => simp [sortLe]
  | cons a as ih => exact pairwise_insertLe htrans htotal ih

/-- On a batch with no malformed candidate, the candidate loop succeeds and
returns exactly the well-located candidates within `radius`. -/
theorem processCandidates_eq_ok (dist : DistanceFn) (lat lon radius : ℚ)
    (cands : List StoredPost)
    (h : ∀ d ∈ cands, d.map_location ≠ some .missingCoords) :
    processCandidates dist lat lon radius cands =
      .ok (processCandidatesSpec dist lat lon radius cands) := by
  induction cands with
  | nil => rfl
  | cons d rest ih =>
    have hd := h d (List.mem_cons_self ..)
    have hrest := ih fun x hx => h x (List.mem_cons_of_mem _ hx)
    rcases hm : d.map_location with _ | lf
    · simp [processCandidates, processCandidatesSpec, hm, hrest,
        List.filterMap_cons]
    · cases lf with
      | missingCoords => exact absurd hm hd
      | loc m =>
        simp only [processCandidates, processCandidatesSpec, hm, hrest,
          List.filterMap_cons, Except.map]
        split
        · simp [processCandidatesSpec]
        · simp [processCandidatesSpec]

/-- A malformed candidate anywhere in the batch makes the candidate loop
raise, surfacing as the endpoint's HTTP 500. -/
theorem processCandidates_error_of_malformed (dist : DistanceFn)
    (lat lon radius : ℚ) (cands : List StoredPost)
    (h : ∃ d ∈ cands, d.map_location = some .missingCoords) :
    processCandidates dist lat lon radius cands =
      .error ⟨500, "Failed to retrieve nearby institution posts: KeyError"⟩ := by
  induction cands with
  | nil => rcases h with ⟨d, hd, _⟩; cases hd
  | cons d rest ih =>
    rcases hm : d.map_location with _ | lf
    · rcases h with ⟨x, hx, hxm⟩
      rcases List.mem_cons.mp hx with rfl | hx'
      · rw [hm] at hxm; cases hxm
      · simp only [processCandidates, hm]
        exact ih ⟨x, hx', hxm⟩
    · cases lf with
      | missingCoords => simp [processCandidates, hm]
      | loc m =>
        rcases h with ⟨x, hx, hxm⟩
        rcases List.mem_cons.mp hx with rfl | hx'
        · rw [hm] at hxm; cases hxm
        · simp [processCandidates, hm, ih ⟨x, hx', hxm⟩, Except.map]

/-- Every pair returned by the candidate loop is a candidate of the batch
whose computed distance is within the radius. -/
theorem mem_of_processCandidates_ok {dist : DistanceFn} {lat lon radius : ℚ}
    {cands : List StoredPost} {l : List (StoredPost × ℚ)}
    (h : processCandidates dist lat lon radius cands = .ok l) :
    ∀ p ∈ l, p.1 ∈ cands ∧ p.2 ≤ radius := by
  induction cands generalizing l with
  | nil =>
    simp only [processCandidates] at h
    cases h
    intro p hp
    cases hp
  | cons d rest ih =>
    rcases hm : d.map_location with _ | lf
    · simp only [processCandidates, hm] at h
      intro p hp
      rcases ih h p hp with ⟨h1, h2⟩
      exact ⟨List.mem_cons_of_mem _ h1, h2⟩
    · cases lf with
      | missingCoords => simp [processCandidates, hm] at h
      | loc m =>
        simp only [processCandidates, hm] at h
        cases hrest : processCandidates dist lat lon radius rest with
        | error e => rw [hrest] at h; cases h
        | ok posts =>
          rw [hrest] at h
          simp only [Except.map] at h
          cases h
          intro p hp
          by_cases hle : dist lat lon m.lat m.lng ≤ radius
          · rw [if_pos hle] at hp
            rcases List.mem_cons.mp hp with rfl | hp'
            · exact ⟨List.mem_cons_self .., hle⟩
            · rcases ih hrest p hp' with ⟨h1, h2⟩
              exact ⟨List.mem_cons_of_mem _ h1, h2⟩
          · rw [if_neg hle] at hp
            rcases ih hrest p hp with ⟨h1, h2⟩
            exact ⟨List.mem_cons_of_mem _ h1, h2⟩

/-- When the default is truthy, the Python `or` of an optional string with it
is truthy. -/
theorem pyOrOptStr_ne_empty {x : Option String} {d : String} (hd : d ≠ "") :
    pyOrOptStr x d ≠ "" := by
  rcases x with _ | s
  · exact hd
  · simp only [pyOrOptStr]
    split
    · exact hd
    · assumption

/-- On items with truthy titles the two deduplication folds agree from any
accumulator onward. -/
theorem dedup_fold_eq (items : List NewsItem) :
    ∀ acc : List NewsItem × List String,
      (∀ it ∈ items, it.title ≠ "") →
      items.foldl dedup_news_step acc = items.foldl dedup_by_identity_step acc := by
  induction items with
  | nil => intro acc _; rfl
  | cons it rest ih =>
    intro acc h
    have htitle : it.title ≠ "" := h it (List.mem_cons_self ..)
    have hid : pyOrOptStr it.url it.title ≠ "" := pyOrOptStr_ne_empty htitle
    have hstep : dedup_news_step acc it = dedup_by_identity_step acc it := by
      simp only [dedup_news_step, dedup_by_identity_step]
      by_cases hmem : pyOrOptStr it.url it.title ∈ acc.2
      · rw [if_neg (by simp [hmem]), if_neg (by simp [hmem])]
      · rw [if_pos ⟨hid, hmem⟩, if_pos hmem]
    simp only [List.foldl_cons, hstep]
    exact ih _ fun x hx => h x (List.mem_cons_of_mem _ hx)

/-- An `Except.map` that returns `ok` comes from an `ok` value. -/
theorem except_map_eq_ok {ε α β : Type _} {f : α → β} {e : Except ε α} {b : β}
    (h : e.map f = .ok b) : ∃ a, e = .ok a ∧ f a = b := by
  cases e with
  | error err => simp [Except.map] at h
  | ok a =>
    refine ⟨a, rfl, ?_⟩
    simpa [Except.map] using h

/-- C1: every record returned by the proximity search has computed distance
at most the radius, the results are sorted ascending by that distance, and
at most 50 are returned — for every distance function, in particular the
haversine distance the code computes. -/
theorem nearby_results_within_radius_sorted_capped
    (bbox : BoundingBoxFn) (dist : DistanceFn) (lat lon radius : ℚ)
    (store : List StoredPost) (out : List (StoredPost × ℚ))
    (h : get_nearby_institution_posts bbox dist lat lon radius store = .ok out) :
    (∀ p ∈ out, p.2 ≤ radius) ∧
    out.Pairwise (fun a b => a.2 ≤ b.2) ∧ out.length ≤ 50 := by
  simp only [get_nearby_institution_posts] at h
  obtain ⟨posts, hpc, hout⟩ := except_map_eq_ok h
  refine ⟨?_, ?_, ?_⟩
  · intro p hp
    rw [← hout] at hp
    have h1 := List.take_subset _ _ hp
    have h2 := mem_sortLe.mp h1
    exact (mem_of_processCandidates_ok hpc p h2).2
  · have hps := @pairwise_sortLe (StoredPost × ℚ)
      (fun a b => decide (a.2 ≤ b.2))
      (fun a b c hab hbc =>
        decide_eq_true (le_trans (of_decide_eq_true hab) (of_decide_eq_true hbc)))
      (fun a b => by
        rcases le_total a.2 b.2 with h' | h'
        · exact Or.inl (decide_eq_true h')
        · exact Or.inr (decide_eq_true h')) posts
    have htake := List.Pairwise.sublist
      (List.take_sublist 50 (sortLe (fun a b : StoredPost × ℚ => decide (a.2 ≤ b.2)) posts)) hps
    rw [← hout]
    exact htake.imp fun hd => of_decide_eq_true hd
  · rw [← hout]
    exact List.length_take_le _ _

/-- C1 witness: one stored record at the query center is returned with
distance 0 ≤ 500 and the result list is within the cap. -/
theorem nearby_results_within_radius_sorted_capped_witness :
    get_nearby_institution_posts bboxWhole distZero (mkRat 81 20) (mkRat 97 10) 500
        [docDouala] = .ok [(docDouala, 0)] ∧
    (docDouala, (0 : ℚ)).2 ≤ 500 ∧ ([(docDouala, (0 : ℚ))] : List (StoredPost × ℚ)).length ≤ 50 :=
  ⟨rfl,
   (nearby_results_within_radius_sorted_capped bboxWhole distZero (mkRat 81 20)
      (mkRat 97 10) 500 [docDouala] [(docDouala, 0)] rfl).1 _ (by decide),
   (nearby_results_within_radius_sorted_capped bboxWhole distZero (mkRat 81 20)
      (mkRat 97 10) 500 [docDouala] [(docDouala, 0)] rfl).2.2⟩

/-- C2: the claim fails on the code.  `update_institution_post` writes only
the dumped body fields and never recomputes `geohash`, so after an update
that changes `map_location` the stored geohash still encodes the old point
(Douala) and differs from the encoding of the new location (Yaounde). -/
theorem geohash_stale_after_location_update :
    (update_institution_post docDouala { map_location := some locYaounde }).map_location
        = some (.loc locYaounde) ∧
    (update_institution_post docDouala { map_location := some locYaounde }).geohash
        = some (geohash2_encode (mkRat 81 20) (mkRat 97 10) 9) ∧
    geohash2_encode (mkRat 81 20) (mkRat 97 10) 9
        ≠ geohash2_encode locYaounde.lat locYaounde.lng 9 :=
  ⟨rfl, rfl, by decide⟩

/-- C3: the claim fails on the code.  With one parsable and one unparsable
timestamp the sort-key list mixes a datetime and the int 0, `list.sort`
raises `TypeError`, and `search_news` surfaces HTTP 500 instead of a sorted
array. -/
theorem news_sort_crashes_on_mixed_timestamps :
    search_news fetchTwo parseStub (some "cameroon") 1 20 (some "serpapi")
      = .error ⟨500, "TypeError: cannot compare datetime.datetime to int"⟩ := by
  rfl

/-- C4 counterexample: one candidate whose `map_location` lacks `lat`/`lng`
makes the whole nearby request fail with HTTP 500; the other, well-formed
candidate is not returned, so the per-candidate error is fatal to the
batch. -/
theorem nearby_batch_aborts_on_malformed_candidate :
    get_nearby_institution_posts bboxWhole distZero (mkRat 81 20) (mkRat 97 10) 500
        [docDouala, docBroken]
      = .error ⟨500, "Failed to retrieve nearby institution posts: KeyError"⟩ := by
  rfl

/-- C4 (amended): a candidate lacking `map_location` is skipped without
failing the batch and the remaining candidates are still processed, but any
other per-candidate conversion error — a `map_location` missing its
`lat`/`lng` fields — aborts the whole batch with HTTP 500. -/
theorem nearby_skips_unmapped_but_malformed_is_fatal
    (dist : DistanceFn) (lat lon radius : ℚ) (cands : List StoredPost) :
    ((∀ d ∈ cands, d.map_location ≠ some .missingCoords) →
      processCandidates dist lat lon radius cands
        = .ok (processCandidatesSpec dist lat lon radius cands)) ∧
    ((∃ d ∈ cands, d.map_location = some .missingCoords) →
      processCandidates dist lat lon radius cands
        = .error ⟨500, "Failed to retrieve nearby institution posts: KeyError"⟩) :=
  ⟨processCandidates_eq_ok dist lat lon radius cands,
   processCandidates_error_of_malformed dist lat lon radius cands⟩

/-- C4 witness: a batch with an unmapped candidate succeeds and returns the
rest; a batch with a malformed candidate fails whole. -/
theorem nearby_skips_unmapped_but_malformed_is_fatal_witness :
    processCandidates distZero 0 0 500 [create_institution_post "p3" postNoLoc, docDouala]
        = .ok [(docDouala, 0)] ∧
    processCandidates distZero 0 0 500 [docDouala, docBroken]
        = .error ⟨500, "Failed to retrieve nearby institution posts: KeyError"⟩ := by
  constructor
  · have h := (nearby_skips_unmapped_but_malformed_is_fatal distZero 0 0 500
      [create_institution_post "p3" postNoLoc, docDouala]).1 (by decide)
    rw [h]
    rfl
  · exact (nearby_skips_unmapped_but_malformed_is_fatal distZero 0 0 500
      [docDouala, docBroken]).2 ⟨docBroken, by decide, rfl⟩

/-- C5 counterexample: a completion response containing no JSON object makes
the translation step of `ai_search_posts` surface HTTP 500
("AI search failed: ...") to the client; no fallback search happens. -/
theorem ai_search_parse_failure_surfaces_500 :
    ai_search_posts_translate (fun _ => none) "I cannot produce structured output."
      = .error ⟨500, "AI search failed: Failed to parse JSON from Ollama"⟩ := by
  rfl

/-- C5 (amended): every translation failure of `ai_search_posts` — no JSON
object found, or `json.loads` failing on the extracted slice — surfaces to
the client as an HTTP 500; in particular any response without an opening
brace does.  There is no `TranslationFailed` fallback path. -/
theorem ai_search_translate_failures_are_http_500
    (json_loads : String → Option SearchParams) (extracted : String) :
    (∀ err, ai_search_posts_translate json_loads extracted = .error err →
      err.status_code = 500) ∧
    (pyFindChar extracted '\x7b' = -1 →
      ai_search_posts_translate json_loads extracted
        = .error ⟨500, "AI search failed: Failed to parse JSON from Ollama"⟩) := by
  constructor
  · intro err herr
    cases hex : ai_search_extract extracted with
    | error e =>
      simp only [ai_search_posts_translate, hex] at herr
      cases herr
      rfl
    | ok s =>
      simp only [ai_search_posts_translate, hex] at herr
      cases hj : json_loads s with
      | none =>
        rw [hj] at herr
        cases herr
        rfl
      | some p =>
        rw [hj] at herr
        cases herr
  · intro hfind
    simp only [ai_search_posts_translate, ai_search_extract]
    rw [if_pos (Or.inl hfind)]
    rfl

/-- C5 witness: a concrete brace-free response hits the 500 branch. -/
theorem ai_search_translate_failures_are_http_500_witness :
    pyFindChar "we could not help" '\x7b' = -1 ∧
    ai_search_posts_translate (fun _ => none) "we could not help"
      = .error ⟨500, "AI search failed: Failed to parse JSON from Ollama"⟩ :=
  ⟨by decide,
   (ai_search_translate_failures_are_http_500 (fun _ => none) "we could not help").2
     (by decide)⟩

/-- C6 counterexample: with center latitude 100 — outside [-90, 90] — the
nearby search does not fail with any validation error: it computes the
bounding box, runs the geohash range query and returns results normally. -/
theorem nearby_accepts_out_of_range_latitude :
    ¬(mkRat 100 1 ≤ (90 : ℚ)) ∧
    get_nearby_institution_posts bboxWhole distZero (mkRat 100 1) 0 500 [docDouala]
      = .ok [(docDouala, 0)] :=
  ⟨by decide, by rfl⟩

/-- C6 (amended): `get_nearby_institution_posts` performs no coordinate
validation: for every center, whether in range or not, the call proceeds to
the bounding box and the range query and (on a well-formed candidate set)
returns `ok`; no `InvalidCoordinate` rejection exists. -/
theorem nearby_never_validates_coordinates
    (bbox : BoundingBoxFn) (dist : DistanceFn) (lat lon radius : ℚ)
    (store : List StoredPost)
    (h : ∀ d ∈ store, d.map_location ≠ some .missingCoords) :
    ∃ out, get_nearby_institution_posts bbox dist lat lon radius store = .ok out := by
  simp only [get_nearby_institution_posts]
  rw [processCandidates_eq_ok dist lat lon radius _
    (fun d hd => h d (List.mem_filter.mp hd).1)]
  exact ⟨_, rfl⟩

/-- C6 witness: the amended theorem applied at the out-of-range latitude
100. -/
theorem nearby_never_validates_coordinates_witness :
    ¬(mkRat 100 1 ≤ (90 : ℚ)) ∧
    ∃ out, get_nearby_institution_posts bboxWhole distZero (mkRat 100 1) 0 500 [docDouala]
      = .ok out :=
  ⟨by decide,
   nearby_never_validates_coordinates bboxWhole distZero (mkRat 100 1) 0 500 [docDouala]
     (by decide)⟩

/-- C7 counterexample: the page number is forwarded to the NewsAPI fetch, so
that provider's contribution to the merged sequence differs between page 1
and page 2 — it is not independent of the page. -/
theorem newsapi_contribution_varies_with_page :
    search_news_merged fetchPageProbe (some "education") 1 20 none
      ≠ search_news_merged fetchPageProbe (some "education") 2 20 none := by
  decide

/-- C7 (amended): pagination is applied to the aggregate — a successful
`search_news` response is exactly the slice
`[(page-1)*page_size : (page-1)*page_size + page_size]` of the merged,
deduplicated, sorted sequence — but the page number is additionally
forwarded to the NewsAPI provider, whose dispatched request (and hence its
contribution) depends on `page`. -/
theorem news_pagination_slice_of_aggregate_and_page_forwarded
    (fetch : ProviderRequest → Except Unit (List NewsItem))
    (parse : String → Option ℤ) (q : Option String) (page page_size : Nat)
    (source : Option String) :
    (∀ out, search_news fetch parse q page page_size source = .ok out →
      ∃ sorted,
        pySortNewsDesc parse
            (dedup_news (search_news_merged fetch q page page_size source))
          = .ok sorted ∧
        out = (sorted.drop ((page - 1) * page_size)).take page_size) ∧
    (∀ page' : Nat, page ≠ page' →
      search_news_requests q page page_size (some "newsapi")
        ≠ search_news_requests q page' page_size (some "newsapi")) := by
  constructor
  · intro out hout
    simp only [search_news] at hout
    split at hout
    · cases hout
    · cases hsort : pySortNewsDesc parse
        (dedup_news (search_news_merged fetch q page page_size source)) with
      | error e => rw [hsort] at hout; cases hout
      | ok sorted =>
        rw [hsort] at hout
        cases hout
        exact ⟨sorted, rfl, rfl⟩
  · intro page' hne heq
    simp [search_news_requests, fetch_newsapi_request] at heq
    exact hne heq

/-- C7 witness: the slice equation at page 1 on the page-probing provider,
and the request difference between pages 1 and 2. -/
theorem news_pagination_slice_of_aggregate_and_page_forwarded_witness :
    (∃ sorted,
      pySortNewsDesc parseStub
          (dedup_news (search_news_merged fetchPageProbe (some "education") 1 20
            (some "newsapi")))
        = .ok sorted ∧
      ([{ title := "page one story" }] : List NewsItem)
        = (sorted.drop ((1 - 1) * 20)).take 20) ∧
    search_news_requests (some "education") 1 20 (some "newsapi")
      ≠ search_news_requests (some "education") 2 20 (some "newsapi") :=
  ⟨(news_pagination_slice_of_aggregate_and_page_forwarded fetchPageProbe parseStub
      (some "education") 1 20 (some "newsapi")).1 _ (by rfl),
   (news_pagination_slice_of_aggregate_and_page_forwarded fetchPageProbe parseStub
      (some "education") 1 20 (some "newsapi")).2 2 (by decide)⟩

/-- C8: a post created without `map_location` is stored with no `geohash`
field, and since the nearby search's candidate set is a range query on the
`geohash` field — which documents lacking the field never match — such a
post is never returned by the proximity search. -/
theorem post_without_location_never_in_nearby_results
    (docId : String) (post : InstitutionPostCreate)
    (hpost : post.map_location = none)
    (bbox : BoundingBoxFn) (dist : DistanceFn) (lat lon radius : ℚ)
    (store : List StoredPost) (out : List (StoredPost × ℚ))
    (h : get_nearby_institution_posts bbox dist lat lon radius store = .ok out) :
    (create_institution_post docId post).geohash = none ∧
    ∀ dq : ℚ, (create_institution_post docId post, dq) ∉ out := by
  have hgeo : (create_institution_post docId post).geohash = none := by
    simp [create_institution_post, hpost]
  refine ⟨hgeo, ?_⟩
  intro dq hmem
  simp only [get_nearby_institution_posts] at h
  obtain ⟨posts, hpc, hout⟩ := except_map_eq_ok h
  rw [← hout] at hmem
  have h1 := List.take_subset _ _ hmem
  have h2 := mem_sortLe.mp h1
  have h3 := (mem_of_processCandidates_ok hpc _ h2).1
  have h4 := (List.mem_filter.mp h3).2
  simp [hgeo] at h4

/-- C8 witness: a concrete store holding both an unlocated created post and a
located one; the nearby search returns only the located one. -/
theorem post_without_location_never_in_nearby_results_witness :
    (create_institution_post "p3" postNoLoc).geohash = none ∧
    (create_institution_post "p3" postNoLoc, (0 : ℚ))
      ∉ ([(docDouala, (0 : ℚ))] : List (StoredPost × ℚ)) :=
  ⟨(post_without_location_never_in_nearby_results "p3" postNoLoc rfl bboxWhole distZero
      (mkRat 81 20) (mkRat 97 10) 500 [create_institution_post "p3" postNoLoc, docDouala]
      [(docDouala, 0)] (by rfl)).1,
   (post_without_location_never_in_nearby_results "p3" postNoLoc rfl bboxWhole distZero
      (mkRat 81 20) (mkRat 97 10) 500 [create_institution_post "p3" postNoLoc, docDouala]
      [(docDouala, 0)] (by rfl)).2 0⟩

/-- C9: every NewsItem built by any of the three provider fetchers has a
non-empty title (falling back to "Untitled"), so the dedup identifier
`url or title` is always truthy and the dedup pass never drops a fetched
item for any reason other than duplicating an earlier item — it coincides
with pure dedup-by-identity. -/
theorem provider_titles_nonempty_and_dedup_by_identity :
    (∀ a : RawNewsapiArticle, (newsapi_item a).title ≠ "") ∧
    (∀ i : RawSerpapiItem, (serpapi_item i).title ≠ "") ∧
    (∀ i : RawSerperItem, (serper_item i).title ≠ "") ∧
    (∀ items : List NewsItem, (∀ it ∈ items, it.title ≠ "") →
      dedup_news items = dedup_by_identity items) := by
  refine ⟨fun a => ?_, fun i => ?_, fun i => ?_, fun items h => ?_⟩
  · exact pyOrOptStr_ne_empty (by decide)
  · exact pyOrOptStr_ne_empty (by decide)
  · exact pyOrOptStr_ne_empty (by decide)
  · simp only [dedup_news, dedup_by_identity]
    rw [dedup_fold_eq items ([], []) h]

/-- C9 witness: the conjuncts applied to all-default raw payloads and to a
concrete item list with a duplicate. -/
theorem provider_titles_nonempty_and_dedup_by_identity_witness :
    (newsapi_item {}).title ≠ "" ∧
    (serpapi_item {}).title ≠ "" ∧
    (serper_item {}).title ≠ "" ∧
    dedup_news [itemParsable, itemParsable, itemUnparsable]
      = dedup_by_identity [itemParsable, itemParsable, itemUnparsable] :=
  ⟨provider_titles_nonempty_and_dedup_by_identity.1 {},
   provider_titles_nonempty_and_dedup_by_identity.2.1 {},
   provider_titles_nonempty_and_dedup_by_identity.2.2.1 {},
   provider_titles_nonempty_and_dedup_by_identity.2.2.2 _ (by decide)⟩

/-- C10: when the query string is absent or empty, the query dispatched to
every selected provider is the literal "Cameroon". -/
theorem empty_query_dispatches_cameroon
    (q : Option String) (hq : q = none ∨ q = some "")
    (page page_size : Nat) (source : Option String) :
    ∀ r ∈ search_news_requests q page page_size source,
      requestQuery r = "Cameroon" := by
  have hquery : pyOrOptStr q "Cameroon" = "Cameroon" := by
    rcases hq with rfl | rfl <;> rfl
  intro r hr
  simp only [search_news_requests, hquery, List.mem_append] at hr
  rcases hr with (hr | hr) | hr <;> split at hr <;>
    simp_all [fetch_newsapi_request, fetch_serpapi_request, fetch_serper_request,
      requestQuery, pyOrStr]

/-- C10 witness: with the empty query, the dispatched NewsAPI request carries
the query "Cameroon". -/
theorem empty_query_dispatches_cameroon_witness :
    ((some "" : Option String) = none ∨ (some "" : Option String) = some "") ∧
    fetch_newsapi_request (pyOrOptStr (some "") "Cameroon") 1 20
      ∈ search_news_requests (some "") 1 20 none ∧
    requestQuery (fetch_newsapi_request (pyOrOptStr (some "") "Cameroon") 1 20)
      = "Cameroon" :=
  ⟨Or.inr rfl, by decide,
   empty_query_dispatches_cameroon (some "") (Or.inr rfl) 1 20 none _ (by decide)⟩
